import Mathlib

/-!
Shallow embedding of the QzTimeBot live quiz engine
(src/plugins/start_quiz.py, src/plugins/join_quiz.py,
src/plugins/search_quiz.py, src/plugins/leaderboard.py, src/utils.py).

Machine integers of the Python source are arbitrary-precision, so they are
modelled by `Int`/`Nat`; Python float timestamps are modelled by exact
rationals `ℚ` (every IEEE double is a rational); Python `dict` values
(insertion-ordered, unique keys) are modelled by association lists.
-/

namespace QzTime

/-- Configuration values read from `config.py` (not part of src/): the
allowed question-count list `QUIZ_COUNT_OF_QUESTIONS_LIST` and the allowed
time-limit list `QUIZ_TIME_LIMIT_LIST`. -/
structure Config where
  quiz_count_of_questions_list : List Int
  quiz_time_limit_list : List Int
deriving Repr, DecidableEq

/-- Per-room participant record, as created in join_quiz.py (lines 326-347):
`{full_name, total_correct, total_wrong, total_points}`. -/
structure Participant where
  full_name : String
  total_correct : Int
  total_wrong : Int
  total_points : Int
deriving Repr, DecidableEq

/-- One approved question as returned by `db.get_questions_by_topic`:
`{text, options, correct_option}` (start_quiz.py lines 405-407). -/
structure Question where
  text : String
  options : List String
  correct_option : Int
deriving Repr, DecidableEq

/-- `quiz_data["current_question"]` as set in `show_question`
(start_quiz.py lines 530-535). -/
structure CurrentQuestion where
  id : String
  correct_option : Int
  start_time : ℚ
  answered_users : List Int
deriving Repr, DecidableEq

/-- One entry of the `active_quizzes` registry (join_quiz.py lines 317-334).
`questions` is `none` until `start_quiz` freezes the selected list
(start_quiz.py line 283): the Python dict simply lacks the key before that. -/
structure QuizRoom where
  creator_id : Int
  topic_id : String
  topic_name : String
  question_count : Int
  time_limit : Int
  participants : List (Int × Participant)
  questions : Option (List Question)
  current_question : Option CurrentQuestion
deriving Repr, DecidableEq

/-- Python `int()` applied to a float: truncation toward zero. -/
def pyInt (q : ℚ) : Int := if 0 ≤ q then ⌊q⌋ else ⌈q⌉

/-- Python `participants.get(uid)` / `uid in participants` on the
insertion-ordered dict, modelled on the association list. -/
def lookupP : List (Int × Participant) → Int → Option Participant
  | [], _ => none
  | (k, v) :: rest, uid => if k = uid then some v else lookupP rest uid

/-- Python `participants[uid] = f(participants[uid])` in-place update of the
insertion-ordered dict (keys are unique, order is preserved). -/
def updateP : List (Int × Participant) → Int → (Participant → Participant) →
    List (Int × Participant)
  | [], _, _ => []
  | (k, v) :: rest, uid, f =>
    if k = uid then (k, f v) :: updateP rest uid f
    else (k, v) :: updateP rest uid f

/-- Outcomes of `process_answer` (start_quiz.py lines 297-372), one per
alert/answer message actually sent. -/
inductive AnswerResult where
  | quiz_not_found
  | quiz_not_active
  | question_not_active
  | not_a_participant
  | already_answered
  | correct_answer (points : Int)
  | wrong_answer (correct_option : Int)
deriving Repr, DecidableEq

/-- `process_answer` (start_quiz.py lines 297-372) for an existing room
(`quiz_id in active_quizzes` already checked by the caller via the
registry lookup).  `now` is `datetime.now().timestamp()`.  The room always
carries a `time_limit` key (set at creation), so
`quiz_data.get("time_limit", config.QUIZ_TIME_LIMIT)` is its field. -/
def process_answer (room : QuizRoom) (question_id : String)
    (selected_option : Int) (user_id : Int) (now : ℚ) :
    AnswerResult × QuizRoom :=
  match room.current_question with
  | none => (.quiz_not_active, room)
  | some cq =>
    if cq.id ≠ question_id then (.question_not_active, room)
    else if (lookupP room.participants user_id).isNone then
      (.not_a_participant, room)
    else if user_id ∈ cq.answered_users then (.already_answered, room)
    else
      let cq2 := { cq with answered_users := cq.answered_users ++ [user_id] }
      let elapsed_time := now - cq.start_time
      let remaining_time := max 0 (room.time_limit - pyInt elapsed_time)
      if selected_option = cq.correct_option then
        let points := 1 + remaining_time
        (.correct_answer points,
         { room with
             current_question := some cq2,
             participants := updateP room.participants user_id
               (fun p => { p with
                   total_correct := p.total_correct + 1,
                   total_points := p.total_points + points }) })
      else
        (.wrong_answer cq.correct_option,
         { room with
             current_question := some cq2,
             participants := updateP room.participants user_id
               (fun p => { p with total_wrong := p.total_wrong + 1 }) })

/-- An answer call that was accepted (registered in `answered_users`). -/
def AnswerResult.isAccepted : AnswerResult → Bool
  | .correct_answer _ => true
  | .wrong_answer _ => true
  | _ => false

theorem lookupP_updateP (ps : List (Int × Participant)) (uid : Int)
    (f : Participant → Participant) :
    lookupP (updateP ps uid f) uid = (lookupP ps uid).map f := by
  induction ps with
  | nil => rfl
  | cons kv rest ih =>
    obtain ⟨k, v⟩ := kv
    by_cases h : k = uid <;> simp [updateP, lookupP, h, ih]

/-- C1: an accepted correct answer to the active question of a room with time
limit T is awarded 1 + max(0, T - elapsed) points, added to the user's
totalPoints while correctCount increments by 1; the award is 1+T at elapsed 0,
exactly 1 at elapsed T, never less than 1, and monotonically non-increasing in
elapsed time. -/
theorem C1_correct_answer_scoring (room : QuizRoom) (qid : String) (uid : Int)
    (now : ℚ) (cq : CurrentQuestion) (p : Participant)
    (hcq : room.current_question = some cq)
    (hid : cq.id = qid)
    (hp : lookupP room.participants uid = some p)
    (hans : uid ∉ cq.answered_users)
    (hT : 0 ≤ room.time_limit) :
    (process_answer room qid cq.correct_option uid now).1 =
      .correct_answer (1 + max 0 (room.time_limit - pyInt (now - cq.start_time))) ∧
    lookupP (process_answer room qid cq.correct_option uid now).2.participants uid =
      some { p with
        total_correct := p.total_correct + 1,
        total_points := p.total_points +
          (1 + max 0 (room.time_limit - pyInt (now - cq.start_time))) } ∧
    (pyInt (now - cq.start_time) = 0 →
      1 + max 0 (room.time_limit - pyInt (now - cq.start_time)) =
        1 + room.time_limit) ∧
    (pyInt (now - cq.start_time) = room.time_limit →
      1 + max 0 (room.time_limit - pyInt (now - cq.start_time)) = 1) ∧
    1 ≤ 1 + max 0 (room.time_limit - pyInt (now - cq.start_time)) ∧
    (∀ now2 : ℚ, pyInt (now - cq.start_time) ≤ pyInt (now2 - cq.start_time) →
      1 + max 0 (room.time_limit - pyInt (now2 - cq.start_time)) ≤
        1 + max 0 (room.time_limit - pyInt (now - cq.start_time))) := by
  have hlp : ¬((lookupP room.participants uid).isNone = true) := by simp [hp]
  have hne : ¬(cq.id ≠ qid) := by simp [hid]
  refine ⟨?_, ?_, ?_, ?_, ?_, ?_⟩
  · simp [process_answer, hcq, hne, hlp, hans]
  · simp [process_answer, hcq, hne, hlp, hans, lookupP_updateP, hp]
  · intro he; rw [he]; omega
  · intro he; rw [he]; omega
  · have : (0 : Int) ≤ max 0 (room.time_limit - pyInt (now - cq.start_time)) :=
      le_max_left _ _
    omega
  · intro now2 hle
    have : max 0 (room.time_limit - pyInt (now2 - cq.start_time)) ≤
        max 0 (room.time_limit - pyInt (now - cq.start_time)) :=
      max_le_max le_rfl (by omega)
    omega

theorem C1_witness :
    (process_answer
      { creator_id := 1, topic_id := "t1", topic_name := "Math",
        question_count := 5, time_limit := 10,
        participants := [(1, ⟨"A", 0, 0, 0⟩), (7, ⟨"B", 0, 0, 0⟩)],
        questions := some [],
        current_question := some ⟨"q_1", 2, 100, []⟩ }
      "q_1" 2 7 (203 / 2)).1 = .correct_answer 10 ∧
    lookupP (process_answer
      { creator_id := 1, topic_id := "t1", topic_name := "Math",
        question_count := 5, time_limit := 10,
        participants := [(1, ⟨"A", 0, 0, 0⟩), (7, ⟨"B", 0, 0, 0⟩)],
        questions := some [],
        current_question := some ⟨"q_1", 2, 100, []⟩ }
      "q_1" 2 7 (203 / 2)).2.participants 7 = some ⟨"B", 1, 0, 10⟩ := by
  obtain ⟨h1, h2, -⟩ := C1_correct_answer_scoring
    { creator_id := 1, topic_id := "t1", topic_name := "Math",
      question_count := 5, time_limit := 10,
      participants := [(1, ⟨"A", 0, 0, 0⟩), (7, ⟨"B", 0, 0, 0⟩)],
      questions := some [],
      current_question := some ⟨"q_1", 2, 100, []⟩ }
    "q_1" 7 (203 / 2) ⟨"q_1", 2, 100, []⟩ ⟨"B", 0, 0, 0⟩
    rfl rfl (by decide) (by decide) (by decide)
  refine ⟨?_, ?_⟩
  · rw [h1]; norm_num [pyInt]
  · rw [h2]; norm_num [pyInt]

/-- C2: once a first AnswerQuestion call from a user for the active question
has been accepted, any second call from the same user for the same question
returns AlreadyAnswered and leaves the room state (counters, totalPoints and
answeredUserIds) completely unchanged. -/
theorem C2_no_double_scoring (room : QuizRoom) (qid : String) (opt : Int)
    (uid : Int) (now : ℚ) (r : AnswerResult) (room1 : QuizRoom)
    (h1 : process_answer room qid opt uid now = (r, room1))
    (hacc : r.isAccepted = true) (opt2 : Int) (now2 : ℚ) :
    process_answer room1 qid opt2 uid now2 = (.already_answered, room1) := by
  cases hcq : room.current_question with
  | none =>
    simp only [process_answer, hcq, Prod.mk.injEq] at h1
    obtain ⟨rfl, -⟩ := h1
    simp [AnswerResult.isAccepted] at hacc
  | some cq =>
    simp only [process_answer, hcq] at h1
    by_cases hid : cq.id ≠ qid
    · rw [if_pos hid] at h1
      obtain ⟨rfl, -⟩ := Prod.mk.injEq .. ▸ h1
      simp [AnswerResult.isAccepted] at hacc
    · rw [if_neg hid] at h1
      push_neg at hid
      by_cases hlp : (lookupP room.participants uid).isNone = true
      · rw [if_pos hlp] at h1
        obtain ⟨rfl, -⟩ := Prod.mk.injEq .. ▸ h1
        simp [AnswerResult.isAccepted] at hacc
      · rw [if_neg hlp] at h1
        by_cases hmem : uid ∈ cq.answered_users
        · rw [if_pos hmem] at h1
          obtain ⟨rfl, -⟩ := Prod.mk.injEq .. ▸ h1
          simp [AnswerResult.isAccepted] at hacc
        · rw [if_neg hmem] at h1
          have hsome : ¬((lookupP room.participants uid) = none) := by
            simpa [Option.isNone_iff_eq_none] using hlp
          by_cases hco : opt = cq.correct_option
          · rw [if_pos hco] at h1
            obtain ⟨-, rfl⟩ := Prod.mk.injEq .. ▸ h1
            simp [process_answer, hid, lookupP_updateP, hsome,
              Option.isNone_iff_eq_none]
          · rw [if_neg hco] at h1
            obtain ⟨-, rfl⟩ := Prod.mk.injEq .. ▸ h1
            simp [process_answer, hid, lookupP_updateP, hsome,
              Option.isNone_iff_eq_none]

theorem C2_witness :
    process_answer
      { creator_id := 1, topic_id := "t1", topic_name := "Math",
        question_count := 5, time_limit := 10,
        participants := [(1, ⟨"A", 0, 0, 0⟩), (7, ⟨"B", 0, 1, 0⟩)],
        questions := some [],
        current_question := some ⟨"q_1", 2, 100, [7]⟩ }
      "q_1" 3 7 106 = (.already_answered,
      { creator_id := 1, topic_id := "t1", topic_name := "Math",
        question_count := 5, time_limit := 10,
        participants := [(1, ⟨"A", 0, 0, 0⟩), (7, ⟨"B", 0, 1, 0⟩)],
        questions := some [],
        current_question := some ⟨"q_1", 2, 100, [7]⟩ }) := by
  exact C2_no_double_scoring
    { creator_id := 1, topic_id := "t1", topic_name := "Math",
      question_count := 5, time_limit := 10,
      participants := [(1, ⟨"A", 0, 0, 0⟩), (7, ⟨"B", 0, 0, 0⟩)],
      questions := some [],
      current_question := some ⟨"q_1", 2, 100, []⟩ }
    "q_1" 1 7 105 (.wrong_answer 2) _ (by decide) (by decide) 3 106

/-- Window-close step of `send_quiz_message` (start_quiz.py lines 425-429):
iterate over the participants dict and increment `total_wrong` for every
user id not found in `current_question["answered_users"]`. -/
def score_unanswered (answered_users : List Int) :
    List (Int × Participant) → List (Int × Participant)
  | [] => []
  | (k, v) :: rest =>
    (if k ∈ answered_users then (k, v)
     else (k, { v with total_wrong := v.total_wrong + 1 })) ::
      score_unanswered answered_users rest

/-- C4: when a question's answer window closes, every participant not in the
current question's answeredUserIds has wrongCount incremented by exactly 1,
and participants who did answer are left unchanged by the window-close step. -/
theorem C4_window_close_scores_non_answers (answered_users : List Int)
    (ps : List (Int × Participant)) (uid : Int) :
    lookupP (score_unanswered answered_users ps) uid =
      (lookupP ps uid).map (fun p =>
        if uid ∈ answered_users then p
        else { p with total_wrong := p.total_wrong + 1 }) := by
  induction ps with
  | nil => rfl
  | cons kv rest ih =>
    obtain ⟨k, v⟩ := kv
    by_cases ha : k ∈ answered_users
    · rw [score_unanswered, if_pos ha]
      by_cases hk : k = uid
      · subst hk; simp [lookupP, ha]
      · simp [lookupP, hk, ih]
    · rw [score_unanswered, if_neg ha]
      by_cases hk : k = uid
      · subst hk; simp [lookupP, ha]
      · simp [lookupP, hk, ih]

/-- Outcomes of `start_quiz` (start_quiz.py lines 202-295), one per
alert/message actually sent. -/
inductive StartResult where
  | invalid_format
  | creator_only
  | quiz_not_found
  | need_players
  | error_general
  | not_enough_questions
  | started
deriving Repr, DecidableEq

/-- `start_quiz` (start_quiz.py lines 202-292) after the payload has been
decoded and the settings extracted (see `extract_quiz_settings`).  `roomIn`
is the registry lookup `active_quizzes.get(quiz_id)`; `get_questions` is the
`db.get_questions_by_topic` result, `none` modelling `status == "error"`;
`shuffled` is the output of `random.shuffle(questions)` (an arbitrary
permutation of the pool — the theorems quantify over it under a `Perm`
hypothesis).  Python compares requester and creator token as strings of
their decimal renderings; for the bot's own canonical payloads this is
integer equality. -/
def start_quiz (roomIn : Option QuizRoom)
    (quiz_creator_id current_user_id : Int)
    (quiz_question_count quiz_time_limit : Int)
    (get_questions : Option (List Question)) (shuffled : List Question) :
    StartResult × Option QuizRoom :=
  if current_user_id ≠ quiz_creator_id then (.creator_only, roomIn)
  else
    match roomIn with
    | none => (.quiz_not_found, none)
    | some room =>
      if room.participants.length < 2 then (.need_players, some room)
      else
        match get_questions with
        | none => (.error_general, some room)
        | some questions =>
          if (questions.length : Int) < quiz_question_count then
            (.not_enough_questions, some room)
          else
            let selected_questions := shuffled.take quiz_question_count.toNat
            (.started, some { room with
              questions := some selected_questions,
              question_count := quiz_question_count,
              time_limit := quiz_time_limit })

/-- C3: starting with questionCount = Q freezes exactly Q questions drawn
without repetition from the approved pool when the pool has at least Q
entries; with fewer than Q entries it fails with InsufficientQuestions and
freezes nothing (the room is returned unchanged). -/
theorem C3_start_freezes_exactly_Q (room : QuizRoom)
    (creator uid Q T : Int) (pool shuffled : List Question)
    (huid : uid = creator)
    (hplayers : ¬room.participants.length < 2)
    (hQ : 0 ≤ Q)
    (hperm : shuffled.Perm pool) :
    ((pool.length : Int) < Q →
      start_quiz (some room) creator uid Q T (some pool) shuffled =
        (.not_enough_questions, some room)) ∧
    (Q ≤ (pool.length : Int) →
      ∃ sel, start_quiz (some room) creator uid Q T (some pool) shuffled =
          (.started, some { room with
            questions := some sel, question_count := Q, time_limit := T }) ∧
        (sel.length : Int) = Q ∧
        ∀ q : Question, sel.count q ≤ pool.count q) := by
  subst huid
  constructor
  · intro hlt
    simp [start_quiz, hplayers, hlt]
  · intro hge
    refine ⟨shuffled.take Q.toNat, ?_, ?_, ?_⟩
    · have hnlt : ¬((pool.length : Int) < Q) := by omega
      simp [start_quiz, hplayers, hnlt]
    · have hlen : shuffled.length = pool.length := hperm.length_eq
      have hle : Q.toNat ≤ shuffled.length := by omega
      rw [List.length_take]
      omega
    · intro q
      calc (shuffled.take Q.toNat).count q
          ≤ shuffled.count q := (List.take_sublist _ _).count_le q
        _ = pool.count q := hperm.count_eq q

theorem C3_witness :
    ∃ sel,
      start_quiz
        (some { creator_id := 5, topic_id := "t2", topic_name := "Geo",
                question_count := 2, time_limit := 15,
                participants := [(5, ⟨"A", 0, 0, 0⟩), (6, ⟨"B", 0, 0, 0⟩)],
                questions := none, current_question := none })
        5 5 2 15
        (some [⟨"qa", ["1", "2", "3", "4"], 0⟩, ⟨"qb", ["1", "2", "3", "4"], 1⟩,
               ⟨"qc", ["1", "2", "3", "4"], 2⟩])
        [⟨"qc", ["1", "2", "3", "4"], 2⟩, ⟨"qa", ["1", "2", "3", "4"], 0⟩,
         ⟨"qb", ["1", "2", "3", "4"], 1⟩] =
      (.started, some { creator_id := 5, topic_id := "t2", topic_name := "Geo",
                        question_count := 2, time_limit := 15,
                        participants := [(5, ⟨"A", 0, 0, 0⟩), (6, ⟨"B", 0, 0, 0⟩)],
                        questions := some sel, current_question := none }) ∧
      (sel.length : Int) = 2 ∧
      ∀ q : Question, sel.count q ≤
        ([⟨"qa", ["1", "2", "3", "4"], 0⟩, ⟨"qb", ["1", "2", "3", "4"], 1⟩,
          ⟨"qc", ["1", "2", "3", "4"], 2⟩] : List Question).count q := by
  exact (C3_start_freezes_exactly_Q
    { creator_id := 5, topic_id := "t2", topic_name := "Geo",
      question_count := 2, time_limit := 15,
      participants := [(5, ⟨"A", 0, 0, 0⟩), (6, ⟨"B", 0, 0, 0⟩)],
      questions := none, current_question := none }
    5 5 2 15
    [⟨"qa", ["1", "2", "3", "4"], 0⟩, ⟨"qb", ["1", "2", "3", "4"], 1⟩,
     ⟨"qc", ["1", "2", "3", "4"], 2⟩]
    [⟨"qc", ["1", "2", "3", "4"], 2⟩, ⟨"qa", ["1", "2", "3", "4"], 0⟩,
     ⟨"qb", ["1", "2", "3", "4"], 1⟩]
    rfl (by decide) (by decide) (by decide)).2 (by decide)

/-- C6: Start invoked on an existing room by a requester who is not the
creator fails with Forbidden (creator-only alert) and leaves the room
completely unchanged; the question sequence is not begun. -/
theorem C6_start_forbidden_for_non_creator (room : QuizRoom)
    (creator uid Q T : Int) (dbq : Option (List Question))
    (shuffled : List Question) (hneq : uid ≠ creator) :
    start_quiz (some room) creator uid Q T dbq shuffled =
      (.creator_only, some room) := by
  simp [start_quiz, hneq]

theorem C6_witness :
    start_quiz
      (some { creator_id := 5, topic_id := "t2", topic_name := "Geo",
              question_count := 2, time_limit := 15,
              participants := [(5, ⟨"A", 0, 0, 0⟩), (6, ⟨"B", 0, 0, 0⟩)],
              questions := none, current_question := none })
      5 6 2 15 (some []) [] =
    (.creator_only,
     some { creator_id := 5, topic_id := "t2", topic_name := "Geo",
            question_count := 2, time_limit := 15,
            participants := [(5, ⟨"A", 0, 0, 0⟩), (6, ⟨"B", 0, 0, 0⟩)],
            questions := none, current_question := none }) :=
  C6_start_forbidden_for_non_creator _ 5 6 2 15 (some []) [] (by decide)

/-- C7: Start invoked by the creator on an existing room with fewer than two
participants fails with InsufficientPlayers and leaves the room completely
unchanged (still NotStarted, no questions frozen), so Start can be retried. -/
theorem C7_start_insufficient_players (room : QuizRoom)
    (creator uid Q T : Int) (dbq : Option (List Question))
    (shuffled : List Question) (hcreator : uid = creator)
    (hlen : room.participants.length < 2) :
    start_quiz (some room) creator uid Q T dbq shuffled =
      (.need_players, some room) := by
  subst hcreator
  simp [start_quiz, hlen]

theorem C7_witness :
    start_quiz
      (some { creator_id := 5, topic_id := "t2", topic_name := "Geo",
              question_count := 2, time_limit := 15,
              participants := [(5, ⟨"A", 0, 0, 0⟩)],
              questions := none, current_question := none })
      5 5 2 15 (some []) [] =
    (.need_players,
     some { creator_id := 5, topic_id := "t2", topic_name := "Geo",
            question_count := 2, time_limit := 15,
            participants := [(5, ⟨"A", 0, 0, 0⟩)],
            questions := none, current_question := none }) :=
  C7_start_insufficient_players _ 5 5 2 15 (some []) [] rfl (by decide)

/-- Outcomes of `join_quiz` (join_quiz.py lines 216-357). -/
inductive JoinResult where
  | invalid_quiz_data
  | sponsor_required
  | already_joined
  | join_success
deriving Repr, DecidableEq

/-- The fresh participant record added by `join_quiz`
(join_quiz.py lines 342-347). -/
def new_participant (full_name : String) : Participant :=
  { full_name := full_name, total_correct := 0, total_wrong := 0,
    total_points := 0 }

/-- `join_quiz` (join_quiz.py lines 216-357) for a room already present in
`active_quizzes`.  `creator_id` is the decoded `int(data[2])` token,
`is_member` the sponsor-channel membership check result, `db_topic_name`
the `get_topic_info` name (`none` when the topic lookup fails).  The second
already-joined test (line 282) repeats the first (lines 246-249) and is
kept, though unreachable. -/
def join_quiz (room : QuizRoom) (creator_id user_id : Int)
    (current_user_full_name : String) (is_member : Bool)
    (db_topic_name : Option String) : JoinResult × QuizRoom :=
  if !is_member then (.sponsor_required, room)
  else if (lookupP room.participants user_id).isSome then
    (.already_joined, room)
  else if user_id = creator_id then
    let room1 :=
      match lookupP room.participants creator_id with
      | some ci =>
        if ci.full_name = "User " ++ toString creator_id ∨
            ci.full_name = "Quiz Creator" then
          { room with participants :=
              (updateP room.participants creator_id
                (fun p => { p with full_name := current_user_full_name })) }
        else room
      | none => room
    (.join_success, room1)
  else if (lookupP room.participants user_id).isSome then
    (.join_success, room)
  else
    let room1 :=
      if room.topic_name = "" ∨ room.topic_name = "Unknown Topic" then
        match db_topic_name with
        | some n => { room with topic_name := n }
        | none => room
      else room
    (.join_success, { room1 with participants :=
        room1.participants ++ [(user_id, new_participant current_user_full_name)] })

theorem C5_counterexample :
    (join_quiz
      { creator_id := 1, topic_id := "t3", topic_name := "History",
        question_count := 5, time_limit := 10,
        participants := [(1, ⟨"A", 0, 0, 0⟩)],
        questions := some [⟨"qa", ["1", "2", "3", "4"], 0⟩],
        current_question := none }
      1 2 "B" true none).1 = .join_success ∧
    (join_quiz
      { creator_id := 1, topic_id := "t3", topic_name := "History",
        question_count := 5, time_limit := 10,
        participants := [(1, ⟨"A", 0, 0, 0⟩)],
        questions := some [⟨"qa", ["1", "2", "3", "4"], 0⟩],
        current_question := none }
      1 2 "B" true none).2.participants ≠ [(1, ⟨"A", 0, 0, 0⟩)] := by
  decide

/-- C5 (amended): a Join callback for an existing room whose round has
started, from a user not yet in participants (and not the creator), succeeds
and ADDS that user to the participants mapping with zeroed counters;
membership is not frozen after start.  The frozen questions, creator and
current question are unchanged. -/
theorem C5_late_join_adds_participant (room : QuizRoom) (creator uid : Int)
    (name : String) (db_topic : Option String) (ql : List Question)
    (hstarted : room.questions = some ql)
    (hnew : lookupP room.participants uid = none)
    (hnc : uid ≠ creator) :
    (join_quiz room creator uid name true db_topic).1 = .join_success ∧
    (join_quiz room creator uid name true db_topic).2.participants =
      room.participants ++ [(uid, new_participant name)] ∧
    (join_quiz room creator uid name true db_topic).2.questions = some ql ∧
    (join_quiz room creator uid name true db_topic).2.creator_id =
      room.creator_id ∧
    (join_quiz room creator uid name true db_topic).2.current_question =
      room.current_question := by
  have hs : (lookupP room.participants uid).isSome = false := by simp [hnew]
  simp only [join_quiz, Bool.not_true, Bool.false_eq_true, if_false, hs, hnc,
    if_true]
  split <;> cases db_topic <;> simp [hstarted]

theorem C5_witness :
    (join_quiz
      { creator_id := 3, topic_id := "t4", topic_name := "Art",
        question_count := 5, time_limit := 10,
        participants := [(3, ⟨"C", 0, 0, 0⟩), (4, ⟨"D", 1, 0, 5⟩)],
        questions := some [⟨"qa", ["1", "2", "3", "4"], 0⟩],
        current_question := none }
      3 9 "E" true none).1 = .join_success ∧
    (join_quiz
      { creator_id := 3, topic_id := "t4", topic_name := "Art",
        question_count := 5, time_limit := 10,
        participants := [(3, ⟨"C", 0, 0, 0⟩), (4, ⟨"D", 1, 0, 5⟩)],
        questions := some [⟨"qa", ["1", "2", "3", "4"], 0⟩],
        current_question := none }
      3 9 "E" true none).2.participants =
      [(3, ⟨"C", 0, 0, 0⟩), (4, ⟨"D", 1, 0, 5⟩)] ++ [(9, new_participant "E")] := by
  obtain ⟨h1, h2, -⟩ := C5_late_join_adds_participant
    { creator_id := 3, topic_id := "t4", topic_name := "Art",
      question_count := 5, time_limit := 10,
      participants := [(3, ⟨"C", 0, 0, 0⟩), (4, ⟨"D", 1, 0, 5⟩)],
      questions := some [⟨"qa", ["1", "2", "3", "4"], 0⟩],
      current_question := none }
    3 9 "E" none [⟨"qa", ["1", "2", "3", "4"], 0⟩] rfl (by decide) (by decide)
  exact ⟨h1, h2⟩

/-- Pre-start ephemeral settings entry of the `quiz_settings` map
(utils.py line 74; written by search_quiz.py lines 391-395). -/
structure QuizSettings where
  question_count : Int
  time_limit : Int
deriving Repr, DecidableEq

/-- Outcomes of `handle_question_count` (search_quiz.py lines 348-417). -/
inductive QCountResult where
  | invalid_data_format
  | only_creator_can_change
  | invalid_question_count
  | cannot_update_settings
  | selected_questions
deriving Repr, DecidableEq

/-- `handle_question_count` (search_quiz.py lines 348-417) after payload
decoding: `user_id` is the creator token of the payload, `settingsIn` the
`quiz_settings` entry for this quiz id, `roomIn` the `active_quizzes` entry.
On the success path the handler writes `quiz_settings[quiz_id]` and the live
room's `question_count` (search_quiz.py lines 392-399) and then calls
`update_quiz_settings` (line 402), which rewrites the same settings entry and
additionally overwrites the live room's `time_limit` with the settings-entry
value `current_time_limit` (utils.py lines 414-422); the net room effect is
modelled here.  Returns the alert sent together with the new settings entry
and room. -/
def handle_question_count (cfg : Config) (settingsIn : Option QuizSettings)
    (roomIn : Option QuizRoom) (user_id current_user_id question_count : Int)
    (has_inline_message_id : Bool) :
    QCountResult × Option QuizSettings × Option QuizRoom :=
  if current_user_id ≠ user_id then
    (.only_creator_can_change, settingsIn, roomIn)
  else if question_count ∉ cfg.quiz_count_of_questions_list then
    (.invalid_question_count, settingsIn, roomIn)
  else if !has_inline_message_id then
    (.cannot_update_settings, settingsIn, roomIn)
  else
    let current_time_limit :=
      match settingsIn with
      | some s => s.time_limit
      | none => cfg.quiz_time_limit_list.headD 0
    let room2 :=
      match roomIn with
      | some room => some { room with question_count := question_count,
                                      time_limit := current_time_limit }
      | none => none
    (.selected_questions,
     some { question_count := question_count, time_limit := current_time_limit },
     room2)

/-- C8: ChangeQuestionCount invoked by the creator with a value outside the
configured allowed set fails with InvalidInput and leaves both the ephemeral
settings entry and the live room untouched; with an allowed value (and an
inline message to update) the settings are updated to it, as is the live
room's stored question count (whose time limit is synced to the
settings-entry value by the same handler). -/
theorem C8_change_question_count (cfg : Config)
    (settingsIn : Option QuizSettings) (roomIn : Option QuizRoom)
    (user_id count : Int) (hasInline : Bool) :
    (count ∉ cfg.quiz_count_of_questions_list →
      handle_question_count cfg settingsIn roomIn user_id user_id count
        hasInline = (.invalid_question_count, settingsIn, roomIn)) ∧
    (count ∈ cfg.quiz_count_of_questions_list → hasInline = true →
      ∃ tl, handle_question_count cfg settingsIn roomIn user_id user_id count
          hasInline =
        (.selected_questions, some ⟨count, tl⟩,
         match roomIn with
         | some room => some { room with question_count := count,
                                         time_limit := tl }
         | none => none)) := by
  constructor
  · intro hnot
    simp [handle_question_count, hnot]
  · intro hmem hinl
    subst hinl
    refine ⟨(match settingsIn with
      | some s => s.time_limit
      | none => cfg.quiz_time_limit_list.headD 0), ?_⟩
    simp [handle_question_count, hmem]

theorem C8_witness :
    handle_question_count ⟨[5, 10, 15, 20], [10, 15, 20, 30]⟩
      (some ⟨5, 20⟩)
      (some { creator_id := 3, topic_id := "t5", topic_name := "Bio",
              question_count := 5, time_limit := 15,
              participants := [(3, ⟨"C", 0, 0, 0⟩)],
              questions := none, current_question := none })
      3 3 7 true =
      (.invalid_question_count, some ⟨5, 20⟩,
       some { creator_id := 3, topic_id := "t5", topic_name := "Bio",
              question_count := 5, time_limit := 15,
              participants := [(3, ⟨"C", 0, 0, 0⟩)],
              questions := none, current_question := none }) ∧
    ∃ tl, handle_question_count ⟨[5, 10, 15, 20], [10, 15, 20, 30]⟩
      (some ⟨5, 20⟩)
      (some { creator_id := 3, topic_id := "t5", topic_name := "Bio",
              question_count := 5, time_limit := 15,
              participants := [(3, ⟨"C", 0, 0, 0⟩)],
              questions := none, current_question := none })
      3 3 10 true =
      (.selected_questions, some ⟨10, tl⟩,
       some { creator_id := 3, topic_id := "t5", topic_name := "Bio",
              question_count := 10, time_limit := tl,
              participants := [(3, ⟨"C", 0, 0, 0⟩)],
              questions := none, current_question := none }) := by
  refine ⟨?_, ?_⟩
  · exact (C8_change_question_count ⟨[5, 10, 15, 20], [10, 15, 20, 30]⟩
      (some ⟨5, 20⟩)
      (some { creator_id := 3, topic_id := "t5", topic_name := "Bio",
              question_count := 5, time_limit := 15,
              participants := [(3, ⟨"C", 0, 0, 0⟩)],
              questions := none, current_question := none })
      3 7 true).1 (by decide)
  · exact (C8_change_question_count ⟨[5, 10, 15, 20], [10, 15, 20, 30]⟩
      (some ⟨5, 20⟩)
      (some { creator_id := 3, topic_id := "t5", topic_name := "Bio",
              question_count := 5, time_limit := 15,
              participants := [(3, ⟨"C", 0, 0, 0⟩)],
              questions := none, current_question := none })
      3 10 true).2 (by decide) rfl

/-- One positional token of the `quiz_start` payload, as seen by `int()`:
either a string that fails to parse (`ValueError`) or an integer value. -/
inductive SettingsToken where
  | bad
  | num (n : Int)
deriving Repr, DecidableEq

/-- Settings extraction of `start_quiz` (start_quiz.py lines 222-240).
`extra = none` models `len(parts) < 6`.  Inside the `try` block
`quiz_question_count = int(parts[4])` is assigned before
`quiz_time_limit = int(parts[5])` is attempted, and the membership
validation runs only after both succeed; a `ValueError` jumps to the
`except` handler, which keeps whatever was assigned so far. -/
def extract_quiz_settings (cfg : Config)
    (extra : Option (SettingsToken × SettingsToken)) : Int × Int :=
  let q0 := cfg.quiz_count_of_questions_list.headD 0
  let t0 := cfg.quiz_time_limit_list.headD 0
  match extra with
  | none => (q0, t0)
  | some (.bad, _) => (q0, t0)
  | some (.num a, .bad) => (a, t0)
  | some (.num a, .num b) =>
    (if a ∈ cfg.quiz_count_of_questions_list then a else q0,
     if b ∈ cfg.quiz_time_limit_list then b else t0)

/-- Modelled from the claim's reading of the same lines: each token
independently falls back to the first configured value when absent,
unparsable, or not in the corresponding allowed list. -/
def extract_quiz_settings_claim (cfg : Config)
    (extra : Option (SettingsToken × SettingsToken)) : Int × Int :=
  let q0 := cfg.quiz_count_of_questions_list.headD 0
  let t0 := cfg.quiz_time_limit_list.headD 0
  match extra with
  | none => (q0, t0)
  | some (tq, tt) =>
    (match tq with
     | .bad => q0
     | .num a => if a ∈ cfg.quiz_count_of_questions_list then a else q0,
     match tt with
     | .bad => t0
     | .num b => if b ∈ cfg.quiz_time_limit_list then b else t0)

/-- C10 (code bug): with config lists [5,10,15,20] / [10,15,20,30], a payload
whose questionCount token parses to 999 (not an allowed value) while the
timeLimit token is unparsable makes start_quiz proceed with questionCount
999: the ValueError from the timeLimit token aborts the block before the
membership validation, contradicting both the claim and the except-branch's
own comment that defaults are used on error. -/
theorem C10_extract_settings_bug :
    extract_quiz_settings ⟨[5, 10, 15, 20], [10, 15, 20, 30]⟩
      (some (.num 999, .bad)) = (999, 10) ∧
    (999 : Int) ∉ ([5, 10, 15, 20] : List Int) ∧
    extract_quiz_settings_claim ⟨[5, 10, 15, 20], [10, 15, 20, 30]⟩
      (some (.num 999, .bad)) = (5, 10) := by
  decide

/-- All-time user statistics as stored by the external store and read by
leaderboard.py (lines 77-80): `total_quiz`, `total_correct`, `total_wrong`,
`total_points` (dict `.get` defaults of 0 are modelled by the fields being
present). -/
structure UserStats where
  total_quiz : Nat
  total_correct : Nat
  total_wrong : Nat
  total_points : Int
deriving Repr, DecidableEq

/-- Python `round(x, 1)`.  Real arithmetic of the Python source (floats) is
modelled by exact rationals; `round` here rounds half up where CPython's
float `round` is representation-dependent banker's rounding — no claim in
scope depends on the tie rule. -/
def roundTo1 (x : ℚ) : ℚ := ((round (10 * x) : ℤ) : ℚ) / 10

/-- `calculate_user_score` (leaderboard.py lines 62-97). -/
def calculate_user_score (s : UserStats) : ℚ :=
  if s.total_quiz = 0 then 0
  else
    let total_questions := s.total_correct + s.total_wrong
    let correct_ratio : ℚ :=
      if 0 < total_questions then
        (s.total_correct : ℚ) / (total_questions : ℚ)
      else 0
    roundTo1 ((6 / 10) * (s.total_points : ℚ) + (3 / 10) * 100 * correct_ratio +
      (1 / 10) * (s.total_quiz : ℚ) * 5)

/-- Modelled from the spec's formula text: `0.6 * totalPoints +
0.3 * 100 * (totalCorrect / (totalCorrect + totalWrong)) +
0.1 * totalQuizzesPlayed * 5`, rounded to one decimal (in ℚ a division by
zero yields 0, matching the code's explicit ratio guard). -/
def global_score_spec (s : UserStats) : ℚ :=
  roundTo1 ((6 / 10) * (s.total_points : ℚ) +
    (3 / 10) * 100 * ((s.total_correct : ℚ) /
      ((s.total_correct : ℚ) + (s.total_wrong : ℚ))) +
    (1 / 10) * (s.total_quiz : ℚ) * 5)

/-- One record of `db.get_all_users()`; `stats = none` models a user
document without a `"stats"` key (leaderboard.py line 158). -/
structure UserRecord where
  user_id : Int
  full_name : String
  stats : Option UserStats
deriving Repr, DecidableEq

/-- One entry of `users_with_scores` (leaderboard.py lines 160-167). -/
structure ScoredUser where
  user_id : Int
  full_name : String
  score : ℚ
  stats : UserStats
deriving Repr, DecidableEq

/-- The `users_with_scores` accumulation shared by `get_top_users`
(leaderboard.py lines 156-167) and `calculate_user_rank` (lines 115-123):
skip users without stats, score the rest, keep only scores above 0. -/
def users_with_scores (all_users : List UserRecord) : List ScoredUser :=
  all_users.filterMap (fun u =>
    match u.stats with
    | none => none
    | some s =>
      let score := calculate_user_score s
      if 0 < score then
        some { user_id := u.user_id, full_name := u.full_name,
               score := score, stats := s }
      else none)

/-- Python `sorted(users, key=score, reverse=True)`: a stable descending
sort by score. -/
def sort_by_score_desc (users : List ScoredUser) : List ScoredUser :=
  users.mergeSort (fun a b => decide (b.score ≤ a.score))

/-- `get_top_users` (leaderboard.py lines 141-178), the `"users"` payload of
the success case. -/
def get_top_users (limit : Nat) (all_users : List UserRecord) :
    List ScoredUser :=
  (sort_by_score_desc (users_with_scores all_users)).take limit

/-- `calculate_user_rank` (leaderboard.py lines 100-138): 1-based position
in the score-sorted, zero-score-excluded list, or 0 when absent. -/
def calculate_user_rank (user_id : Int) (all_users : List UserRecord) : Nat :=
  match (sort_by_score_desc (users_with_scores all_users)).findIdx?
      (fun u => decide (u.user_id = user_id)) with
  | some i => i + 1
  | none => 0

/-- C9: the global leaderboard score is a pure function reproducing the
spec's weighted formula rounded to one decimal; a user with totalQuiz = 0
scores exactly 0 and is excluded both from the top-N listing and from rank
numbering. -/
theorem C9_global_score (s : UserStats) (all_users : List UserRecord)
    (limit : Nat) (uid : Int) :
    (s.total_quiz = 0 → calculate_user_score s = 0) ∧
    (s.total_quiz ≠ 0 → calculate_user_score s = global_score_spec s) ∧
    (∀ u ∈ get_top_users limit all_users, u.stats.total_quiz ≠ 0) ∧
    ((∀ u ∈ all_users, u.user_id = uid →
        ∀ st, u.stats = some st → st.total_quiz = 0) →
      calculate_user_rank uid all_users = 0) := by
  have hmem : ∀ u ∈ users_with_scores all_users,
      0 < calculate_user_score u.stats ∧
      ∃ v ∈ all_users, v.user_id = u.user_id ∧ v.stats = some u.stats := by
    intro u hu
    rw [users_with_scores, List.mem_filterMap] at hu
    obtain ⟨v, hv, hfv⟩ := hu
    cases hst : v.stats with
    | none => rw [hst] at hfv; exact absurd hfv (by simp)
    | some st =>
      rw [hst] at hfv
      by_cases hpos : 0 < calculate_user_score st
      · simp only [hpos, if_true, Option.some.injEq] at hfv
        subst hfv
        exact ⟨hpos, v, hv, rfl, hst⟩
      · simp only [hpos, if_false] at hfv
        exact absurd hfv (by simp)
  have hzero : ∀ t : UserStats, t.total_quiz = 0 →
      calculate_user_score t = 0 := by
    intro t ht; simp [calculate_user_score, ht]
  refine ⟨hzero s, ?_, ?_, ?_⟩
  · intro hq
    rcases Nat.eq_zero_or_pos (s.total_correct + s.total_wrong) with h0 | h0
    · have hc : s.total_correct = 0 := by omega
      have hw : s.total_wrong = 0 := by omega
      simp [calculate_user_score, global_score_spec, hq, hc, hw]
    · have hc0 : ((s.total_correct + s.total_wrong : Nat) : ℚ) =
        (s.total_correct : ℚ) + (s.total_wrong : ℚ) := by push_cast; ring
      simp [calculate_user_score, global_score_spec, hq, h0, hc0]
  · intro u hu
    have hu2 : u ∈ users_with_scores all_users := by
      have := List.take_sublist limit
        (sort_by_score_desc (users_with_scores all_users))
      have hu3 := this.mem hu
      rw [sort_by_score_desc, List.mem_mergeSort] at hu3
      exact hu3
    obtain ⟨hpos, -⟩ := hmem u hu2
    intro hq
    rw [hzero u.stats hq] at hpos
    exact absurd hpos (by norm_num)
  · intro h
    rw [calculate_user_rank]
    have hnone : (sort_by_score_desc (users_with_scores all_users)).findIdx?
        (fun u => decide (u.user_id = uid)) = none := by
      rw [List.findIdx?_eq_none_iff]
      intro u hu
      rw [sort_by_score_desc, List.mem_mergeSort] at hu
      obtain ⟨hpos, v, hv, hid, hst⟩ := hmem u hu
      simp only [decide_eq_false_iff_not]
      intro huid
      have := h v hv (hid.trans huid) u.stats hst
      rw [hzero u.stats this] at hpos
      exact absurd hpos (by norm_num)
    rw [hnone]

theorem C9_witness :
    calculate_user_score ⟨0, 3, 1, 40⟩ = 0 ∧
    calculate_user_score ⟨2, 3, 1, 40⟩ = global_score_spec ⟨2, 3, 1, 40⟩ ∧
    calculate_user_rank 7
      [⟨7, "Z", some ⟨0, 3, 1, 40⟩⟩, ⟨8, "Y", none⟩] = 0 := by
  refine ⟨(C9_global_score ⟨0, 3, 1, 40⟩ [] 20 7).1 rfl,
    (C9_global_score ⟨2, 3, 1, 40⟩ [] 20 7).2.1 (by decide), ?_⟩
  exact (C9_global_score ⟨2, 3, 1, 40⟩
    [⟨7, "Z", some ⟨0, 3, 1, 40⟩⟩, ⟨8, "Y", none⟩] 20 7).2.2.2 (by
      intro u hu h1 st h2
      fin_cases hu
      · obtain rfl := Option.some.inj h2
        rfl
      · exact absurd h2 (by simp))

end QzTime
